import Mathlib

/-!
Shallow embedding of the offline-resilient submission pipeline of the
university visitor registration system: the durable queue
(`offlineStorage`, IndexedDB-backed), the connectivity monitor, the sync
engine and the submission gateway (`offlineSync`).

Conventions of the embedding:
- JavaScript module-level mutable state becomes explicit state records
  (`ConnState`, `QueueState`, `SysState`) threaded through the functions.
- IndexedDB storage failures are modelled by an explicit `sfail : Option JsError`
  argument: `none` means storage works, `some e` means the storage layer
  fails with error `e` before any mutation.  Operations whose JS source
  catches storage errors return plain values (no `Except`); only
  `addOfflineStudent`, whose source re-throws, returns `Except`.
- Timestamps (`new Date().toISOString()`) are modelled as `Nat` supplied by
  the caller; the real clock is monotone, which theorems take as a
  hypothesis where they need it.
- Side effects other than state mutation (listener notification, drain
  trigger, live-call issuance) are recorded in explicit action traces so
  that ordering claims can be stated.
-/

namespace VisitorOffline

/-- Payloads are opaque to the queue; we model them as strings. -/
abbrev Payload := String

/-- The result value a successful live call returns; opaque to the core. -/
abbrev ServerResult := String

/-- A JavaScript error as inspected by the source: `code` and `message`
may each be absent (optional chaining in the source). -/
structure JsError where
  code : Option String
  message : Option String
deriving DecidableEq, Repr

/-! ## Durable Queue (`offlineStorage`, src/unnamed/part_004) -/

/-- A record of the `pending_students` object store: `id` is the
IndexedDB auto-increment key, `studentData` the payload, `created_at`
the enqueue timestamp, `synced` always written `false`. -/
structure Record where
  id : Nat
  studentData : Payload
  created_at : Nat
  synced : Bool
deriving DecidableEq, Repr

/-- The object store: `nextId` is the auto-increment counter (IndexedDB
keys start at 1), `records` the resident records in primary-key order. -/
structure QueueState where
  nextId : Nat
  records : List Record
deriving DecidableEq, Repr

/-- A freshly created store. -/
def emptyQueue : QueueState := ⟨1, []⟩

/-- `addOfflineStudent(studentData)`: stores `{studentData, created_at, synced: false}`
with a store-assigned auto-increment key and returns the generated id.
On a storage error the source re-throws (`throw error`). -/
def addOfflineStudent (sfail : Option JsError) (studentData : Payload) (now : Nat)
    (st : QueueState) : Except JsError (QueueState × Nat) :=
  match sfail with
  | some e => .error e
  | none =>
      .ok (⟨st.nextId + 1, st.records ++ [⟨st.nextId, studentData, now, false⟩]⟩, st.nextId)

/-- Ordering used by the `created_at` index: index key ascending, ties
broken by primary key ascending (IndexedDB `getAll` on an index). -/
def recLE (a b : Record) : Prop :=
  a.created_at < b.created_at ∨ (a.created_at = b.created_at ∧ a.id ≤ b.id)

instance : DecidableRel recLE := fun a b => by
  unfold recLE; exact inferInstance

/-- `getPendingStudents()`: reads the whole store through the `created_at`
index, hence sorted by `(created_at, id)`; on any storage error the
source catches and returns `[]`. -/
def getPendingStudents (sfail : Option JsError) (st : QueueState) : List Record :=
  match sfail with
  | some _ => []
  | none => List.insertionSort recLE st.records

/-- `getPendingCount()`: `store.count()`; on any storage error the source
catches and returns `0`. -/
def getPendingCount (sfail : Option JsError) (st : QueueState) : Nat :=
  match sfail with
  | some _ => 0
  | none => st.records.length

/-- `deleteOfflineStudent(id)`: `store.delete(id)` removes the record with
that key if present; on any storage error the source catches, logs and
returns normally (never throws). -/
def deleteOfflineStudent (sfail : Option JsError) (id : Nat) (st : QueueState) : QueueState :=
  match sfail with
  | some _ => st
  | none => ⟨st.nextId, st.records.filter (fun r => r.id ≠ id)⟩

/-- `clearAllPending()`: `store.clear()`; storage errors are caught and
swallowed. -/
def clearAllPending (sfail : Option JsError) (st : QueueState) : QueueState :=
  match sfail with
  | some _ => st
  | none => ⟨st.nextId, []⟩

/-! ## Connectivity Monitor (`offlineSync`, src/unnamed/part_003) -/

/-- `MAX_CONSECUTIVE_FAILURES` in the source. -/
def MAX_CONSECUTIVE_FAILURES : Nat := 3

/-- The module-level connectivity variables `isOnline` and
`consecutiveFailures`. -/
structure ConnState where
  online : Bool
  consecutiveFailures : Nat
deriving DecidableEq, Repr

/-- One fire of the `setInterval` callback of `startConnectivityCheck`,
given the outcome `isServerUp` of `checkServerHealth()`:
on success, reset the failure count (and if currently offline, flip back
online); on failure, increment the count and flip offline once it reaches
`MAX_CONSECUTIVE_FAILURES` while online. -/
def connectivityCheckTick (isServerUp : Bool) (s : ConnState) : ConnState :=
  if isServerUp then
    if !s.online then ⟨true, 0⟩
    else ⟨s.online, 0⟩
  else
    let cf := s.consecutiveFailures + 1
    if MAX_CONSECUTIVE_FAILURES ≤ cf ∧ s.online = true then ⟨false, cf⟩
    else ⟨s.online, cf⟩

/-- Observable side effects of the monitor's event handlers. -/
inductive MonitorAction where
  | notifyStatus (online : Bool)
  | drain
  | probe
deriving DecidableEq, Repr

/-- `handleOnline`: browser `online` event — reset the failure counter,
set `isOnline = true`, notify listeners, then `syncPendingData()`. -/
def handleOnline (_ : ConnState) : ConnState × List MonitorAction :=
  (⟨true, 0⟩, [.notifyStatus true, .drain])

/-- `handleOffline`: browser `offline` event — set the failure counter to
the threshold, set `isOnline = false`, notify listeners. -/
def handleOffline (_ : ConnState) : ConnState × List MonitorAction :=
  (⟨false, MAX_CONSECUTIVE_FAILURES⟩, [.notifyStatus false])

/-! ## Sync Engine (`syncPendingData`, src/unnamed/part_003) -/

/-- The `{success, failed}` value a drain returns. -/
structure SyncResult where
  success : Nat
  failed : Nat
deriving DecidableEq, Repr

/-- The module-level state of `offlineSync`: connectivity, the durable
queue, and the `syncInProgress` single-flight flag. -/
structure SysState where
  conn : ConnState
  queue : QueueState
  syncInProgress : Bool
deriving DecidableEq, Repr

/-- Output of a drain: result counts, the post-state, and the list of
payloads passed to `studentsAPI.create` (the live-submission attempts),
in the order they were issued. -/
structure SyncOut where
  result : SyncResult
  st : SysState
  attempts : List Payload
deriving DecidableEq, Repr

/-- Intermediate output of the per-record loop. -/
structure DrainOut where
  queue : QueueState
  success : Nat
  failed : Nat
  attempts : List Payload
deriving DecidableEq, Repr

/-- The `for (const record of pendingStudents)` loop of `syncPendingData`:
each record's payload is submitted (`sub` is the collaborator's
per-payload outcome — `true` = the endpoint acknowledged); on success the
record is deleted from the store and `success` incremented; on failure
the record is left alone, `failed` incremented, and the loop continues. -/
def drainLoop (sub : Payload → Bool) : List Record → QueueState → DrainOut
  | [], q => ⟨q, 0, 0, []⟩
  | r :: rest, q =>
    if sub r.studentData then
      let out := drainLoop sub rest (deleteOfflineStudent none r.id q)
      ⟨out.queue, out.success + 1, out.failed, r.studentData :: out.attempts⟩
    else
      let out := drainLoop sub rest q
      ⟨out.queue, out.success, out.failed + 1, r.studentData :: out.attempts⟩

/-- `syncPendingData()`: return `{success: 0, failed: 0}` at once if a
drain is in progress or connectivity is offline; otherwise set the
single-flight flag, read the pending list, loop over it, and clear the
flag (`finally`). The page reload the source performs on `success > 0`
is a UI navigation effect outside this model. -/
def syncPendingData (sub : Payload → Bool) (st : SysState) : SyncOut :=
  if st.syncInProgress || !st.conn.online then ⟨⟨0, 0⟩, st, []⟩
  else
    let st1 : SysState := ⟨st.conn, st.queue, true⟩
    let pending := getPendingStudents none st1.queue
    if pending.length = 0 then ⟨⟨0, 0⟩, ⟨st1.conn, st1.queue, false⟩, []⟩
    else
      let out := drainLoop sub pending st1.queue
      ⟨⟨out.success, out.failed⟩, ⟨st1.conn, out.queue, false⟩, out.attempts⟩

/-! ## Submission Gateway (`safeAPICall`, src/unnamed/part_003) -/

/-- `needle.isPrefixOf hay || recurse` over the tail: JavaScript
`String.prototype.includes`. -/
def charSearch (needle : List Char) : List Char → Bool
  | [] => needle.isEmpty
  | c :: rest => needle.isPrefixOf (c :: rest) || charSearch needle rest

/-- `m?.includes(sub)` on an optional message: `none` (undefined) is
falsy. -/
def msgIncludes (m : Option String) (needle : String) : Bool :=
  match m with
  | none => false
  | some s => charSearch needle.toList s.toList

/-- The network-shaped-error test of `safeAPICall`: `!navigator.onLine`,
one of the three error codes, or one of the three message substrings. -/
def isNetworkError (navOnline : Bool) (e : JsError) : Bool :=
  !navOnline
  || e.code == some "ERR_NETWORK"
  || e.code == some "ECONNREFUSED"
  || e.code == some "ETIMEDOUT"
  || msgIncludes e.message "fetch failed"
  || msgIncludes e.message "Network Error"
  || msgIncludes e.message "ECONNREFUSED"

/-- What `safeAPICall` returns on the happy paths: the server's result,
or the queued-record marker `{offline: true, id}`. -/
inductive SubmitResult where
  | server (r : ServerResult)
  | queued (id : Nat)
deriving DecidableEq, Repr

/-- Observable side effects of `safeAPICall`, in issue order. -/
inductive GatewayEvent where
  | liveCall
  | notifyStatus (online : Bool)
  | enqueued
deriving DecidableEq, Repr

/-- `safeAPICall(apiCall, data)`: when online, run the live call
(`apiResult` is its outcome); on success reset the failure counter and
return the server result; on a network-shaped failure flip offline,
notify listeners, store the payload offline and return
`{offline: true, id}`; on any other failure re-throw. When offline,
store the payload immediately without a live call. A storage failure
during `addOfflineStudent` propagates (the source does not catch it). -/
def safeAPICall (navOnline : Bool) (sfail : Option JsError)
    (apiResult : Except JsError ServerResult) (data : Payload) (now : Nat)
    (st : SysState) : Except JsError SubmitResult × SysState × List GatewayEvent :=
  if st.conn.online then
    match apiResult with
    | .ok r =>
        (.ok (.server r), ⟨⟨st.conn.online, 0⟩, st.queue, st.syncInProgress⟩, [.liveCall])
    | .error e =>
        if isNetworkError navOnline e then
          let st1 : SysState := ⟨⟨false, st.conn.consecutiveFailures⟩, st.queue, st.syncInProgress⟩
          match addOfflineStudent sfail data now st1.queue with
          | .ok (q', id) =>
              (.ok (.queued id), ⟨st1.conn, q', st1.syncInProgress⟩,
                [.liveCall, .notifyStatus false, .enqueued])
          | .error e' => (.error e', st1, [.liveCall, .notifyStatus false])
        else
          (.error e, st, [.liveCall])
  else
    match addOfflineStudent sfail data now st.queue with
    | .ok (q', id) => (.ok (.queued id), ⟨st.conn, q', st.syncInProgress⟩, [.enqueued])
    | .error e' => (.error e', st, [])

/-! ## Operation sequences over the queue (for the FIFO property) -/

/-- One queue operation issued by a client: an enqueue (with the wall
clock's current time) or a point removal. -/
inductive QOp where
  | enq (data : Payload) (now : Nat)
  | rem (id : Nat)
deriving DecidableEq, Repr

/-- Apply one operation with working storage. -/
def applyOp (st : QueueState) : QOp → QueueState
  | .enq d now =>
      match addOfflineStudent none d now st with
      | .ok (st', _) => st'
      | .error _ => st
  | .rem id => deleteOfflineStudent none id st

/-- Apply a sequence of operations in order. -/
def applyOps (ops : List QOp) (st : QueueState) : QueueState :=
  ops.foldl applyOp st

/-- The wall clock is monotone: every enqueue timestamp is at least `t`
and at least every earlier enqueue's timestamp. -/
def timesFrom : Nat → List QOp → Bool
  | _, [] => true
  | t, .enq _ now :: rest => decide (t ≤ now) && timesFrom now rest
  | t, .rem _ :: rest => timesFrom t rest

/-- Enqueue order: earlier-enqueued records have smaller ids and no
larger timestamps. -/
def recOrd (a b : Record) : Prop :=
  a.id < b.id ∧ a.created_at ≤ b.created_at

/-- Invariant of reachable queue states at wall-clock time `t`: records
are in enqueue order, ids are below the auto-increment counter, and
timestamps do not exceed the clock. -/
def QueueInv (st : QueueState) (t : Nat) : Prop :=
  st.records.Pairwise recOrd ∧ ∀ r ∈ st.records, r.id < st.nextId ∧ r.created_at ≤ t

/-- Ids of the records of `pend` whose submission the endpoint
acknowledged. -/
def ackedIds (sub : Payload → Bool) (pend : List Record) : List Nat :=
  (pend.filter (fun p => sub p.studentData)).map Record.id

end VisitorOffline

namespace VisitorOffline

/-! ## Drain-loop lemmas -/

lemma drainLoop_attempts (sub : Payload → Bool) (pend : List Record) (q : QueueState) :
    (drainLoop sub pend q).attempts = pend.map (fun r => r.studentData) := by
  induction pend generalizing q with
  | nil => rfl
  | cons r rest ih =>
      cases h : sub r.studentData <;> simp [drainLoop, h, ih]

lemma drainLoop_success (sub : Payload → Bool) (pend : List Record) (q : QueueState) :
    (drainLoop sub pend q).success = pend.countP (fun r => sub r.studentData) := by
  induction pend generalizing q with
  | nil => rfl
  | cons r rest ih =>
      cases h : sub r.studentData <;> simp [drainLoop, h, ih, List.countP_cons]

lemma drainLoop_failed (sub : Payload → Bool) (pend : List Record) (q : QueueState) :
    (drainLoop sub pend q).failed = pend.countP (fun r => !(sub r.studentData)) := by
  induction pend generalizing q with
  | nil => rfl
  | cons r rest ih =>
      cases h : sub r.studentData <;> simp [drainLoop, h, ih, List.countP_cons]

lemma drainLoop_records (sub : Payload → Bool) (pend : List Record) (q : QueueState) :
    (drainLoop sub pend q).queue.records
      = q.records.filter (fun r => !(decide (r.id ∈ ackedIds sub pend))) := by
  induction pend generalizing q with
  | nil => simp [drainLoop, ackedIds]
  | cons p rest ih =>
      cases h : sub p.studentData with
      | false =>
          simp only [drainLoop, h, Bool.false_eq_true, if_false]
          rw [ih]
          apply List.filter_congr
          intro r _
          simp [ackedIds, h]
      | true =>
          simp only [drainLoop, h, if_true]
          rw [ih]
          simp only [deleteOfflineStudent, List.filter_filter]
          apply List.filter_congr
          intro r _
          cases h1 : decide (r.id = p.id) <;>
            cases h2 : decide (r.id ∈ ackedIds sub rest) <;>
              simp_all [ackedIds, h, List.mem_cons]

lemma mem_ackedIds (sub : Payload → Bool) {l pend : List Record}
    (hnd : (l.map Record.id).Nodup) (hperm : pend.Perm l) {r : Record} (hr : r ∈ l) :
    r.id ∈ ackedIds sub pend ↔ sub r.studentData = true := by
  constructor
  · intro hmem
    rcases List.mem_map.mp hmem with ⟨p, hp, hpid⟩
    rcases List.mem_filter.mp hp with ⟨hpend, hsub⟩
    have hpl : p ∈ l := hperm.mem_iff.mp hpend
    have : p = r := List.inj_on_of_nodup_map hnd hpl hr hpid
    exact this ▸ hsub
  · intro hsub
    have hpend : r ∈ pend := hperm.mem_iff.mpr hr
    exact List.mem_map.mpr ⟨r, List.mem_filter.mpr ⟨hpend, hsub⟩, rfl⟩

/-- A drain request arriving while another drain holds the single-flight
flag returns `{success: 0, failed: 0}` at once: no queue read, no
submission attempt, no state change. -/
lemma sync_noop_of_busy (sub : Payload → Bool) (st : SysState)
    (h : st.syncInProgress = true) :
    syncPendingData sub st = ⟨⟨0, 0⟩, st, []⟩ := by
  simp [syncPendingData, h]

/-- The pending list read by a drain is a permutation of the resident
records. -/
lemma pending_perm (st : SysState) :
    (getPendingStudents none st.queue).Perm st.queue.records := by
  simpa [getPendingStudents] using List.perm_insertionSort recLE st.queue.records

lemma records_eq_nil_of_no_pending {st : SysState}
    (hp : (getPendingStudents none st.queue).length = 0) :
    st.queue.records = [] := by
  have hlen := (pending_perm st).length_eq
  exact List.length_eq_zero.mp (hlen.symm.trans hp)

/-- Unfolding of a real drain when the pending list is empty. -/
lemma sync_empty_eq (sub : Payload → Bool) (st : SysState)
    (h1 : st.syncInProgress = false) (h2 : st.conn.online = true)
    (hp : (getPendingStudents none st.queue).length = 0) :
    syncPendingData sub st = ⟨⟨0, 0⟩, ⟨st.conn, st.queue, false⟩, []⟩ := by
  simp [syncPendingData, h1, h2, hp]

/-- Unfolding of a real drain when the pending list is nonempty. -/
lemma sync_run_eq (sub : Payload → Bool) (st : SysState)
    (h1 : st.syncInProgress = false) (h2 : st.conn.online = true)
    (hp : ¬(getPendingStudents none st.queue).length = 0) :
    syncPendingData sub st =
      ⟨⟨(drainLoop sub (getPendingStudents none st.queue) st.queue).success,
        (drainLoop sub (getPendingStudents none st.queue) st.queue).failed⟩,
       ⟨st.conn, (drainLoop sub (getPendingStudents none st.queue) st.queue).queue, false⟩,
       (drainLoop sub (getPendingStudents none st.queue) st.queue).attempts⟩ := by
  simp [syncPendingData, h1, h2, hp]

/-- A real drain (flag clear, online) issues exactly one live-submission
attempt per resident record. -/
lemma sync_attempts_len (sub : Payload → Bool) (st : SysState)
    (h1 : st.syncInProgress = false) (h2 : st.conn.online = true) :
    (syncPendingData sub st).attempts.length = st.queue.records.length := by
  by_cases hp : (getPendingStudents none st.queue).length = 0
  · rw [sync_empty_eq sub st h1 h2 hp, records_eq_nil_of_no_pending hp]
    rfl
  · rw [sync_run_eq sub st h1 h2 hp]
    simp only [drainLoop_attempts, List.length_map]
    exact (pending_perm st).length_eq

/-- After a real drain, exactly the unacknowledged records remain, each
unmodified, in their original order. -/
lemma sync_records_eq (sub : Payload → Bool) (st : SysState)
    (h1 : st.syncInProgress = false) (h2 : st.conn.online = true)
    (h3 : (st.queue.records.map Record.id).Nodup) :
    (syncPendingData sub st).st.queue.records
      = st.queue.records.filter (fun r => !(sub r.studentData)) := by
  by_cases hp : (getPendingStudents none st.queue).length = 0
  · rw [sync_empty_eq sub st h1 h2 hp, records_eq_nil_of_no_pending hp]
    rfl
  · rw [sync_run_eq sub st h1 h2 hp]
    rw [drainLoop_records]
    apply List.filter_congr
    intro r hr
    have hiff := mem_ackedIds sub h3 (pending_perm st) hr
    cases hs : sub r.studentData
    · simp [hiff, hs]
    · simp [hiff, hs]

/-- The counts a real drain returns. -/
lemma sync_counts_eq (sub : Payload → Bool) (st : SysState)
    (h1 : st.syncInProgress = false) (h2 : st.conn.online = true) :
    (syncPendingData sub st).result.success
        = st.queue.records.countP (fun r => sub r.studentData)
    ∧ (syncPendingData sub st).result.failed
        = st.queue.records.countP (fun r => !(sub r.studentData)) := by
  by_cases hp : (getPendingStudents none st.queue).length = 0
  · rw [sync_empty_eq sub st h1 h2 hp, records_eq_nil_of_no_pending hp]
    exact ⟨rfl, rfl⟩
  · rw [sync_run_eq sub st h1 h2 hp]
    constructor
    · simp only [drainLoop_success]
      exact (pending_perm st).countP_eq _
    · simp only [drainLoop_failed]
      exact (pending_perm st).countP_eq _

/-- The attempts of a real drain are the pending records' payloads in
retrieval order. -/
lemma sync_attempts_eq (sub : Payload → Bool) (st : SysState)
    (h1 : st.syncInProgress = false) (h2 : st.conn.online = true) :
    (syncPendingData sub st).attempts
      = (getPendingStudents none st.queue).map (fun r => r.studentData) := by
  by_cases hp : (getPendingStudents none st.queue).length = 0
  · rw [sync_empty_eq sub st h1 h2 hp, List.length_eq_zero.mp hp]
    rfl
  · rw [sync_run_eq sub st h1 h2 hp]
    exact drainLoop_attempts _ _ _

/-! ## Theorems on the monitor and the queue primitives -/

/-- Claim C1: starting online with failure counter 0, the connectivity
state is still online after exactly 2 consecutive health-probe failures;
the 3rd consecutive failure flips it offline; and any single probe
success resets the failure counter to 0 and (in particular when the state
is currently offline) makes the state online. -/
theorem connectivity_hysteresis :
    (connectivityCheckTick false (connectivityCheckTick false ⟨true, 0⟩)).online = true
    ∧ (connectivityCheckTick false (connectivityCheckTick false
        (connectivityCheckTick false ⟨true, 0⟩))).online = false
    ∧ ∀ s : ConnState, connectivityCheckTick true s = ⟨true, 0⟩ := by
  refine ⟨by decide, by decide, ?_⟩
  intro s
  cases s with
  | mk online cf =>
      cases online <;> simp [connectivityCheckTick]

/-- Counterexample to claim C7: a platform "online" event received while
offline with the counter at threshold does not re-probe the health
endpoint — no probe action is among the handler's effects. -/
theorem handleOnline_no_probe :
    MonitorAction.probe ∉ (handleOnline ⟨false, 3⟩).2 := by
  decide

/-- Claim C7 (amended): a platform "offline" event immediately sets
`online = false` and the failure counter to the threshold (3) and
notifies subscribers; a platform "online" event resets the counter to
zero, sets `online = true`, notifies subscribers, and immediately
triggers a drain of the pending queue (rather than re-probing the health
endpoint). -/
theorem platform_events :
    ∀ s : ConnState,
      handleOffline s = (⟨false, MAX_CONSECUTIVE_FAILURES⟩, [.notifyStatus false])
      ∧ handleOnline s = (⟨true, 0⟩, [.notifyStatus true, .drain]) := by
  intro s
  exact ⟨rfl, rfl⟩

/-- Claim C9: removal is idempotent — for every id and queue state,
removing twice equals removing once — and removing an absent id is a
no-op; the operation's type is total, so it raises nothing. -/
theorem remove_idempotent (sfail : Option JsError) (id : Nat) (st : QueueState) :
    deleteOfflineStudent sfail id (deleteOfflineStudent sfail id st)
        = deleteOfflineStudent sfail id st
    ∧ ((∀ r ∈ st.records, r.id ≠ id) → deleteOfflineStudent sfail id st = st) := by
  cases sfail with
  | some e => exact ⟨rfl, fun _ => rfl⟩
  | none =>
      constructor
      · simp [deleteOfflineStudent, List.filter_filter]
      · intro h
        simp only [deleteOfflineStudent]
        have : st.records.filter (fun r => r.id ≠ id) = st.records :=
          List.filter_eq_self.mpr (by
            intro r hr
            exact decide_eq_true (h r hr))
        rw [this]

/-- Witness for `remove_idempotent` at a concrete queue and an absent id. -/
theorem remove_idempotent_witness :
    deleteOfflineStudent none 7 (deleteOfflineStudent none 7 ⟨2, [⟨1, "A", 5, false⟩]⟩)
        = deleteOfflineStudent none 7 ⟨2, [⟨1, "A", 5, false⟩]⟩
    ∧ deleteOfflineStudent none 7 ⟨2, [⟨1, "A", 5, false⟩]⟩ = ⟨2, [⟨1, "A", 5, false⟩]⟩ := by
  have h := remove_idempotent none 7 ⟨2, [⟨1, "A", 5, false⟩]⟩
  exact ⟨h.1, h.2 (by decide)⟩

/-- Claim C2: single-flight drain — a drain request arriving while the
single-flight flag is held (any mid-flight state `stMid`) returns
`{success: 0, failed: 0}` immediately, changes nothing and issues no
live-submission call, while the drain that holds the flag issues exactly
one live-submission call per queued record; so two drains triggered over
a queue of `n` records issue `n` calls in total, never `2n`, and only
the flag-holding drain reads or removes records. -/
theorem single_flight_drain (sub : Payload → Bool) (st stMid : SysState)
    (hmid : stMid.syncInProgress = true)
    (h1 : st.syncInProgress = false) (h2 : st.conn.online = true) :
    syncPendingData sub stMid = ⟨⟨0, 0⟩, stMid, []⟩
    ∧ (syncPendingData sub st).attempts.length = st.queue.records.length
    ∧ (syncPendingData sub st).attempts.length
        + (syncPendingData sub stMid).attempts.length = st.queue.records.length := by
  have hnoop := sync_noop_of_busy sub stMid hmid
  have hlen := sync_attempts_len sub st h1 h2
  refine ⟨hnoop, hlen, ?_⟩
  rw [hnoop]
  simpa using hlen

/-- Witness for `single_flight_drain`: a 2-record queue; the second,
mid-flight request is a no-op and the total call count is 2. -/
theorem single_flight_drain_witness :
    syncPendingData (fun _ => true)
        ⟨⟨true, 0⟩, ⟨3, [⟨1, "A", 5, false⟩, ⟨2, "B", 6, false⟩]⟩, true⟩
      = ⟨⟨0, 0⟩, ⟨⟨true, 0⟩, ⟨3, [⟨1, "A", 5, false⟩, ⟨2, "B", 6, false⟩]⟩, true⟩, []⟩
    ∧ (syncPendingData (fun _ => true)
        ⟨⟨true, 0⟩, ⟨3, [⟨1, "A", 5, false⟩, ⟨2, "B", 6, false⟩]⟩, false⟩).attempts.length = 2 := by
  have h := single_flight_drain (fun _ => true)
    ⟨⟨true, 0⟩, ⟨3, [⟨1, "A", 5, false⟩, ⟨2, "B", 6, false⟩]⟩, false⟩
    ⟨⟨true, 0⟩, ⟨3, [⟨1, "A", 5, false⟩, ⟨2, "B", 6, false⟩]⟩, true⟩
    rfl rfl rfl
  exact ⟨h.1, h.2.1⟩

/-- Claim C5: a drain attempts every pending record in retrieval order;
each acknowledged submission removes its record and counts into
`success`, each failed one leaves its record in place, counts into
`failed`, and the loop continues; the caller receives only the aggregate
counts (the drain's type is total — no per-record failure is raised). -/
theorem partial_batch_drain (sub : Payload → Bool) (st : SysState)
    (h1 : st.syncInProgress = false) (h2 : st.conn.online = true)
    (h3 : (st.queue.records.map Record.id).Nodup) :
    (syncPendingData sub st).result.success
        = st.queue.records.countP (fun r => sub r.studentData)
    ∧ (syncPendingData sub st).result.failed
        = st.queue.records.countP (fun r => !(sub r.studentData))
    ∧ (syncPendingData sub st).st.queue.records
        = st.queue.records.filter (fun r => !(sub r.studentData))
    ∧ (syncPendingData sub st).attempts
        = (getPendingStudents none st.queue).map (fun r => r.studentData) := by
  exact ⟨(sync_counts_eq sub st h1 h2).1, (sync_counts_eq sub st h1 h2).2,
    sync_records_eq sub st h1 h2 h3, sync_attempts_eq sub st h1 h2⟩

/-- Witness for `partial_batch_drain`: the spec's 3-record scenario —
record 2 fails, records 1 and 3 succeed; the drain returns
`{success: 2, failed: 1}` and exactly record 2 stays resident. -/
theorem partial_batch_drain_witness :
    (syncPendingData (fun p => p ≠ "B")
        ⟨⟨true, 0⟩, ⟨4, [⟨1, "A", 5, false⟩, ⟨2, "B", 6, false⟩, ⟨3, "C", 7, false⟩]⟩,
          false⟩).result = ⟨2, 1⟩
    ∧ (syncPendingData (fun p => p ≠ "B")
        ⟨⟨true, 0⟩, ⟨4, [⟨1, "A", 5, false⟩, ⟨2, "B", 6, false⟩, ⟨3, "C", 7, false⟩]⟩,
          false⟩).st.queue.records = [⟨2, "B", 6, false⟩] := by
  have h := partial_batch_drain (fun p => p ≠ "B")
    ⟨⟨true, 0⟩, ⟨4, [⟨1, "A", 5, false⟩, ⟨2, "B", 6, false⟩, ⟨3, "C", 7, false⟩]⟩, false⟩
    rfl rfl (by decide)
  refine ⟨?_, h.2.2.1.trans (by decide)⟩
  have hs := h.1
  have hf := h.2.1
  cases hres : (syncPendingData (fun p => p ≠ "B")
      ⟨⟨true, 0⟩, ⟨4, [⟨1, "A", 5, false⟩, ⟨2, "B", 6, false⟩, ⟨3, "C", 7, false⟩]⟩,
        false⟩).result with
  | mk s f =>
      rw [hres] at hs hf
      simp only at hs hf
      rw [hs, hf]
      decide

/-- Claim C6: queue membership — a record resident before a drain is
absent afterwards exactly when the remote endpoint acknowledged its
submission; an unacknowledged record stays resident as the very same
record (same id, payload and enqueue timestamp). -/
theorem queue_membership (sub : Payload → Bool) (st : SysState)
    (h1 : st.syncInProgress = false) (h2 : st.conn.online = true)
    (h3 : (st.queue.records.map Record.id).Nodup)
    (r : Record) (hr : r ∈ st.queue.records) :
    (r ∉ (syncPendingData sub st).st.queue.records ↔ sub r.studentData = true)
    ∧ (sub r.studentData = false → r ∈ (syncPendingData sub st).st.queue.records) := by
  rw [sync_records_eq sub st h1 h2 h3]
  constructor
  · constructor
    · intro hnot
      by_contra hne
      exact hnot (List.mem_filter.mpr ⟨hr, by simp [Bool.eq_false_iff.mpr hne]⟩)
    · intro hacked hmem
      have := (List.mem_filter.mp hmem).2
      simp [hacked] at this
  · intro hfail
    exact List.mem_filter.mpr ⟨hr, by simp [hfail]⟩

/-- Witness for `queue_membership`: in the 2-record queue where only "A"
is acknowledged, record 1 is gone and record 2 survives untouched. -/
theorem queue_membership_witness :
    (⟨1, "A", 5, false⟩ ∉ (syncPendingData (fun p => p = "A")
        ⟨⟨true, 0⟩, ⟨3, [⟨1, "A", 5, false⟩, ⟨2, "B", 6, false⟩]⟩, false⟩).st.queue.records)
    ∧ (⟨2, "B", 6, false⟩ : Record) ∈ (syncPendingData (fun p => p = "A")
        ⟨⟨true, 0⟩, ⟨3, [⟨1, "A", 5, false⟩, ⟨2, "B", 6, false⟩]⟩, false⟩).st.queue.records := by
  have hA := queue_membership (fun p => p = "A")
    ⟨⟨true, 0⟩, ⟨3, [⟨1, "A", 5, false⟩, ⟨2, "B", 6, false⟩]⟩, false⟩
    rfl rfl (by decide) ⟨1, "A", 5, false⟩ (by decide)
  have hB := queue_membership (fun p => p = "A")
    ⟨⟨true, 0⟩, ⟨3, [⟨1, "A", 5, false⟩, ⟨2, "B", 6, false⟩]⟩, false⟩
    rfl rfl (by decide) ⟨2, "B", 6, false⟩ (by decide)
  exact ⟨hA.1.mpr (by decide), hB.2 (by decide)⟩

/-! ## FIFO lemmas -/

lemma recOrd_to_recLE {a b : Record} (h : recOrd a b) : recLE a b := by
  rcases h with ⟨hid, hts⟩
  rcases Nat.lt_or_ge a.created_at b.created_at with hlt | hge
  · exact Or.inl hlt
  · exact Or.inr ⟨Nat.le_antisymm hts hge, Nat.le_of_lt hid⟩

lemma inv_enq {st : QueueState} {t now : Nat} (hinv : QueueInv st t)
    (hle : t ≤ now) (d : Payload) :
    QueueInv (applyOp st (.enq d now)) now := by
  obtain ⟨hpw, hbound⟩ := hinv
  constructor
  · simp only [applyOp, addOfflineStudent]
    rw [List.pairwise_append]
    refine ⟨hpw, List.pairwise_singleton _ _, ?_⟩
    intro a ha b hb
    rw [List.mem_singleton] at hb
    subst hb
    exact ⟨(hbound a ha).1, Nat.le_trans (hbound a ha).2 hle⟩
  · intro r hr
    simp only [applyOp, addOfflineStudent, List.mem_append, List.mem_singleton] at hr
    rcases hr with hr | hr
    · exact ⟨Nat.lt_succ_of_lt (hbound r hr).1, Nat.le_trans (hbound r hr).2 hle⟩
    · subst hr
      exact ⟨Nat.lt_succ_self _, Nat.le_refl _⟩

lemma inv_rem {st : QueueState} {t : Nat} (hinv : QueueInv st t) (id : Nat) :
    QueueInv (applyOp st (.rem id)) t := by
  obtain ⟨hpw, hbound⟩ := hinv
  constructor
  · exact hpw.sublist (List.filter_sublist _)
  · intro r hr
    simp only [applyOp, deleteOfflineStudent] at hr
    exact hbound r (List.mem_of_mem_filter hr)

lemma applyOps_inv : ∀ (ops : List QOp) (t : Nat) (st : QueueState),
    QueueInv st t → timesFrom t ops = true →
    ∃ t', QueueInv (applyOps ops st) t' := by
  intro ops
  induction ops with
  | nil =>
      intro t st hinv _
      exact ⟨t, hinv⟩
  | cons op rest ih =>
      intro t st hinv hmono
      cases op with
      | enq d now =>
          simp only [timesFrom, Bool.and_eq_true, decide_eq_true_eq] at hmono
          exact ih now _ (inv_enq hinv hmono.1 d) hmono.2
      | rem id =>
          simp only [timesFrom] at hmono
          exact ih t _ (inv_rem hinv id) hmono

/-- Claim C8: for any operation sequence issued under a monotone clock,
`getPendingStudents` returns the resident records exactly as stored —
in enqueue order (ids strictly increasing, timestamps ascending) — so
interleaved removals of other records never reorder the survivors. -/
theorem queue_fifo (ops : List QOp) (h : timesFrom 0 ops = true) :
    getPendingStudents none (applyOps ops emptyQueue) = (applyOps ops emptyQueue).records
    ∧ (applyOps ops emptyQueue).records.Pairwise recOrd := by
  obtain ⟨t', hpw, _⟩ := applyOps_inv ops 0 emptyQueue
    ⟨List.Pairwise.nil, by intro r hr; cases hr⟩ h
  refine ⟨?_, hpw⟩
  have hsorted : List.Sorted recLE (applyOps ops emptyQueue).records :=
    hpw.imp recOrd_to_recLE
  simp only [getPendingStudents]
  exact hsorted.insertionSort_eq

/-- Witness for `queue_fifo`: enqueue A, B, remove id 1, enqueue C —
retrieval returns B then C, still in enqueue order. -/
theorem queue_fifo_witness :
    timesFrom 0 [QOp.enq "A" 10, QOp.enq "B" 20, QOp.rem 1, QOp.enq "C" 20] = true
    ∧ (getPendingStudents none
          (applyOps [QOp.enq "A" 10, QOp.enq "B" 20, QOp.rem 1, QOp.enq "C" 20] emptyQueue)
        = (applyOps [QOp.enq "A" 10, QOp.enq "B" 20, QOp.rem 1, QOp.enq "C" 20]
            emptyQueue).records
      ∧ (applyOps [QOp.enq "A" 10, QOp.enq "B" 20, QOp.rem 1, QOp.enq "C" 20]
          emptyQueue).records.Pairwise recOrd) := by
  exact ⟨by decide,
    queue_fifo [QOp.enq "A" 10, QOp.enq "B" 20, QOp.rem 1, QOp.enq "C" 20] (by decide)⟩

/-- Claim C3: the gateway returns `{offline: true, id}` and enqueues the
payload exactly when connectivity is currently offline (in which case the
live call is skipped — the only effect is the enqueue) or the live call
fails with a network-shaped error; in the latter case the connectivity
state is flipped offline and subscribers are notified before the
enqueue. -/
theorem gateway_contract (navOnline : Bool) (apiResult : Except JsError ServerResult)
    (data : Payload) (now : Nat) (st : SysState) :
    ((∃ id, (safeAPICall navOnline none apiResult data now st).1 = .ok (.queued id))
      ↔ (st.conn.online = false
          ∨ ∃ e, apiResult = .error e ∧ isNetworkError navOnline e = true))
    ∧ (st.conn.online = false →
        (safeAPICall navOnline none apiResult data now st).2.2 = [.enqueued])
    ∧ (∀ e, st.conn.online = true → apiResult = .error e →
        isNetworkError navOnline e = true →
        (safeAPICall navOnline none apiResult data now st).2.1.conn.online = false
        ∧ (safeAPICall navOnline none apiResult data now st).2.2
            = [.liveCall, .notifyStatus false, .enqueued])
    ∧ ((∃ id, (safeAPICall navOnline none apiResult data now st).1 = .ok (.queued id)) →
        (safeAPICall navOnline none apiResult data now st).2.1.queue.records
            = st.queue.records ++ [⟨st.queue.nextId, data, now, false⟩]
        ∧ (safeAPICall navOnline none apiResult data now st).1
            = .ok (.queued st.queue.nextId)) := by
  refine ⟨?_, ?_, ?_, ?_⟩
  · cases hon : st.conn.online with
    | false =>
        refine ⟨fun _ => Or.inl rfl, fun _ => ?_⟩
        exact ⟨st.queue.nextId, by simp [safeAPICall, hon, addOfflineStudent]⟩
    | true =>
        cases apiResult with
        | ok r =>
            constructor
            · rintro ⟨id, hid⟩
              simp [safeAPICall, hon] at hid
            · rintro (h | ⟨e, he, _⟩)
              · exact absurd h (by decide)
              · exact absurd he (by simp)
        | error e =>
            cases hnet : isNetworkError navOnline e with
            | true =>
                refine ⟨fun _ => Or.inr ⟨e, rfl, hnet⟩, fun _ => ?_⟩
                exact ⟨st.queue.nextId, by simp [safeAPICall, hon, hnet, addOfflineStudent]⟩
            | false =>
                constructor
                · rintro ⟨id, hid⟩
                  simp [safeAPICall, hon, hnet] at hid
                · rintro (h | ⟨e', he', hnet'⟩)
                  · exact absurd h (by decide)
                  · cases he'
                    exact absurd (hnet.symm.trans hnet') (by decide)
  · intro hoff
    simp [safeAPICall, hoff, addOfflineStudent]
  · intro e hon he hnet
    subst he
    constructor <;> simp [safeAPICall, hon, hnet, addOfflineStudent]
  · rintro ⟨id, hid⟩
    cases hon : st.conn.online with
    | false =>
        constructor <;> simp [safeAPICall, hon, addOfflineStudent]
    | true =>
        cases apiResult with
        | ok r =>
            simp [safeAPICall, hon] at hid
        | error e =>
            cases hnet : isNetworkError navOnline e with
            | true =>
                constructor <;> simp [safeAPICall, hon, hnet, addOfflineStudent]
            | false =>
                simp [safeAPICall, hon, hnet] at hid

/-- Witness for `gateway_contract`: an offline submission queues the
payload with id 1 and skips the live call; an online submission failing
with `ERR_NETWORK` flips connectivity offline and notifies before
enqueuing. -/
theorem gateway_contract_witness :
    (safeAPICall true none (.ok "r") "A" 9 ⟨⟨false, 3⟩, ⟨1, []⟩, false⟩).1
        = .ok (.queued 1)
    ∧ (safeAPICall true none (.ok "r") "A" 9 ⟨⟨false, 3⟩, ⟨1, []⟩, false⟩).2.2 = [.enqueued]
    ∧ (safeAPICall true none (.ok "r") "A" 9
        ⟨⟨false, 3⟩, ⟨1, []⟩, false⟩).2.1.queue.records = [⟨1, "A", 9, false⟩]
    ∧ (safeAPICall true none (.error ⟨some "ERR_NETWORK", none⟩) "A" 9
        ⟨⟨true, 0⟩, ⟨1, []⟩, false⟩).2.1.conn.online = false
    ∧ (safeAPICall true none (.error ⟨some "ERR_NETWORK", none⟩) "A" 9
        ⟨⟨true, 0⟩, ⟨1, []⟩, false⟩).2.2
        = [.liveCall, .notifyStatus false, .enqueued] := by
  have h1 := gateway_contract true (.ok "r") "A" 9 ⟨⟨false, 3⟩, ⟨1, []⟩, false⟩
  have h2 := gateway_contract true (.error ⟨some "ERR_NETWORK", none⟩) "A" 9
    ⟨⟨true, 0⟩, ⟨1, []⟩, false⟩
  have hq := h1.2.2.2 (h1.1.mpr (Or.inl rfl))
  have hn := h2.2.2.1 ⟨some "ERR_NETWORK", none⟩ rfl rfl (by decide)
  exact ⟨hq.2, h1.2.1 rfl, hq.1, hn.1, hn.2⟩

/-- Claim C4: while online, a live-call failure that is not
network-shaped is re-raised to the caller unchanged, the state (hence
the queue and its pending count) is untouched, and nothing is
enqueued. -/
theorem app_rejection_not_queued (navOnline : Bool) (sfail : Option JsError) (e : JsError)
    (data : Payload) (now : Nat) (st : SysState)
    (h1 : st.conn.online = true) (h2 : isNetworkError navOnline e = false) :
    safeAPICall navOnline sfail (.error e) data now st = (.error e, st, [.liveCall])
    ∧ getPendingCount none (safeAPICall navOnline sfail (.error e) data now st).2.1.queue
        = getPendingCount none st.queue := by
  have heq : safeAPICall navOnline sfail (.error e) data now st = (.error e, st, [.liveCall]) := by
    simp [safeAPICall, h1, h2]
  exact ⟨heq, by rw [heq]⟩

/-- Witness for `app_rejection_not_queued`: a validation rejection
(`ERR_BAD_REQUEST`, "Validation failed") while online with an empty
queue is re-raised and the pending count stays 0. -/
theorem app_rejection_not_queued_witness :
    isNetworkError true ⟨some "ERR_BAD_REQUEST", some "Validation failed"⟩ = false
    ∧ safeAPICall true none (.error ⟨some "ERR_BAD_REQUEST", some "Validation failed"⟩)
        "A" 9 ⟨⟨true, 0⟩, ⟨1, []⟩, false⟩
      = (.error ⟨some "ERR_BAD_REQUEST", some "Validation failed"⟩,
          ⟨⟨true, 0⟩, ⟨1, []⟩, false⟩, [.liveCall]) := by
  refine ⟨by decide, ?_⟩
  exact (app_rejection_not_queued true none ⟨some "ERR_BAD_REQUEST", some "Validation failed"⟩
    "A" 9 ⟨⟨true, 0⟩, ⟨1, []⟩, false⟩ rfl (by decide)).1

/-- Claim C10: on a storage failure, `getPendingStudents` returns `[]`,
`getPendingCount` returns `0`, and `deleteOfflineStudent` (and
`clearAllPending`) return normally with the state unchanged — none of
them raises — while `addOfflineStudent` is the only queue operation that
re-raises the storage error to its caller. -/
theorem storage_failure_totality (e : JsError) (id : Nat) (d : Payload) (now : Nat)
    (st : QueueState) :
    getPendingStudents (some e) st = []
    ∧ getPendingCount (some e) st = 0
    ∧ deleteOfflineStudent (some e) id st = st
    ∧ clearAllPending (some e) st = st
    ∧ addOfflineStudent (some e) d now st = .error e := by
  exact ⟨rfl, rfl, rfl, rfl, rfl⟩

end VisitorOffline
